import Mathlib

/-!
Shallow embedding of `src/device.c` from the FocalTechTouch repository:
a WDF touchscreen driver whose core is the interrupt-driven HID
reporting pipeline (`OnInterruptIsr` / `SendHidReports`), the power
callbacks (`OnD0Entry`), and the PnP callbacks (`OnPrepareHardware` /
`OnReleaseHardware`).

External collaborators (the touch engine `TchServiceInterrupts`,
`TchWakeDevice`, `TchStopDevice`, `TchFreeContext`, the bus layer
`SpbTargetInitialize` / `SpbTargetDeinitialize`, and the WDF queue) are
modelled as parameters and event traces; the control flow of the
functions under `src/` is translated statement by statement.
-/

namespace FocalTech

/-- NTSTATUS values are 32-bit signed integers; negative means failure. -/
abbrev NTSTATUS := Int

def STATUS_SUCCESS : NTSTATUS := 0

/-- 0xC0000023 interpreted as a signed 32-bit value. -/
def STATUS_BUFFER_TOO_SMALL : NTSTATUS := (0xC0000023 : Int) - 0x100000000

/-- 0xC000009A interpreted as a signed 32-bit value; this is the initial
`status` of `OnPrepareHardware` (its "missing required resource" failure). -/
def STATUS_INSUFFICIENT_RESOURCES : NTSTATUS := (0xC000009A : Int) - 0x100000000

/-- 0xC0000001 interpreted as a signed 32-bit value. -/
def STATUS_UNSUCCESSFUL : NTSTATUS := (0xC0000001 : Int) - 0x100000000

/-- 0x8000001A interpreted as a signed 32-bit value: returned by
`WdfIoQueueRetrieveNextRequest` on an empty queue. -/
def STATUS_NO_MORE_ENTRIES : NTSTATUS := (0x8000001A : Int) - 0x100000000

/-- The `NT_SUCCESS` macro: nonnegative status values are success. -/
def NT_SUCCESS (s : NTSTATUS) : Bool := decide (0 ≤ (s : Int))

/-- A pending HIDClass read request sitting in the ping-pong queue.
`retrieveStatus` is the status `WdfRequestRetrieveOutputBuffer` returns for
it, and `bufferLength` the reported output-buffer length when retrieval
succeeds.  `id` identifies the request across the dispatch pass. -/
structure WDFREQUEST where
  id : Nat
  retrieveStatus : NTSTATUS
  bufferLength : Nat
deriving DecidableEq, Repr

/-- A HID input report produced by the touch engine: a flat block of
bytes (`RtlCopyMemory` copies `sizeof(HID_INPUT_REPORT)` of them). -/
abbrev HID_INPUT_REPORT := List Nat

/-- The observable completion of one request: `WdfRequestComplete` with a
status, the information recorded by `WdfRequestSetInformation` (0 when that
call is skipped), and the bytes copied into the output buffer, if any. -/
structure Completion where
  reqId : Nat
  status : NTSTATUS
  information : Nat
  written : Option (List Nat)
deriving DecidableEq, Repr

/-- Body of one iteration of the dispatch loop of `SendHidReports`
(device.c lines 143-184), after a request has been dequeued: retrieve the
output buffer, check its size, and build the completion that
`WdfRequestComplete` emits. -/
def completeOneRequest (szHID : Nat) (report : HID_INPUT_REPORT)
    (request : WDFREQUEST) : Completion :=
  if NT_SUCCESS request.retrieveStatus = false then
    { reqId := request.id, status := request.retrieveStatus,
      information := 0, written := none }
  else if request.bufferLength < szHID then
    { reqId := request.id, status := STATUS_BUFFER_TOO_SMALL,
      information := 0, written := none }
  else
    { reqId := request.id, status := STATUS_SUCCESS,
      information := szHID, written := some (report.take szHID) }

/-- `SendHidReports` (device.c lines 108-186).  The loop walks the report
array; each iteration dequeues the next request from the FIFO ping-pong
queue (empty queue: the report is dropped and the loop continues), then
completes the dequeued request exactly once.  Returns the remaining queue
and the list of completions in the order they were emitted.
`szHID` stands for the compile-time constant `sizeof(HID_INPUT_REPORT)`. -/
def SendHidReports (szHID : Nat) (PingPongQueue : List WDFREQUEST)
    (hidReportsFromDriver : List HID_INPUT_REPORT) :
    List WDFREQUEST × List Completion :=
  match hidReportsFromDriver with
  | [] => (PingPongQueue, [])
  | report :: rest =>
    match PingPongQueue with
    | [] =>
      -- WdfIoQueueRetrieveNextRequest failed: no request pending, the
      -- report is ignored and the loop continues
      SendHidReports szHID [] rest
    | request :: queueRest =>
      let out := SendHidReports szHID queueRest rest
      (out.1, completeOneRequest szHID report request :: out.2)

/-- The slice of `DEVICE_EXTENSION` that `OnInterruptIsr`, `OnD0Entry` and
`OnPrepareHardware` touch. -/
structure DEVICE_EXTENSION where
  PingPongQueue : List WDFREQUEST
  ServiceInterruptsAfterD0Entry : Bool
  InputMode : Nat
  I2cResHubId : Nat × Nat
  ResetGpioId : Nat × Nat
  HasResetGpio : Bool
deriving DecidableEq, Repr

/-- `OnInterruptIsr` (device.c lines 33-106).  The outcome of the external
call `TchServiceInterrupts` is supplied as `svcStatus` together with the
report array it hands back.  On service failure the routine jumps to
`exit`; otherwise it dispatches through `SendHidReports`.  It returns
TRUE in both cases, together with the updated context and the completions
emitted. -/
def OnInterruptIsr (szHID : Nat) (devContext : DEVICE_EXTENSION)
    (svcStatus : NTSTATUS) (hidReportsFromDriver : List HID_INPUT_REPORT) :
    Bool × DEVICE_EXTENSION × List Completion :=
  if NT_SUCCESS svcStatus = false then
    (true, devContext, [])
  else
    let out := SendHidReports szHID devContext.PingPongQueue hidReportsFromDriver
    (true, { devContext with PingPongQueue := out.1 }, out.2)

/-- Calls into external collaborators, recorded as an event trace. -/
inductive DriverCall where
  | TchWakeDevice
  | TchCompleteIdleIrp
  | TchStopDevice
  | TchFreeContext
  | SpbTargetDeinitialize
  | SpbTargetInitialize
  | TchAllocateContext
  | TchStartDevice
deriving DecidableEq, Repr

/-- `OnD0Entry` (device.c lines 188-241).  `wakeStatus` is the status the
external `TchWakeDevice` returns.  The routine logs on failure but falls
through: it sets `ServiceInterruptsAfterD0Entry`, calls
`TchCompleteIdleIrp`, and returns the wake status.  Result: returned
status, updated context, trace of external calls in program order. -/
def OnD0Entry (devContext : DEVICE_EXTENSION) (wakeStatus : NTSTATUS) :
    NTSTATUS × DEVICE_EXTENSION × List DriverCall :=
  (wakeStatus,
   { devContext with ServiceInterruptsAfterD0Entry := true },
   [DriverCall.TchWakeDevice, DriverCall.TchCompleteIdleIrp])

/-- `OnReleaseHardware` (device.c lines 530-587).  `stopStatus` and
`freeStatus` are the statuses the external `TchStopDevice` and
`TchFreeContext` return.  Each step runs unconditionally; `status` is
reassigned by the free step, and `SpbTargetDeinitialize` returns no
status, so the function returns `freeStatus`. -/
def OnReleaseHardware (stopStatus freeStatus : NTSTATUS) :
    NTSTATUS × List DriverCall :=
  (freeStatus,
   [DriverCall.TchStopDevice, DriverCall.TchFreeContext,
    DriverCall.SpbTargetDeinitialize])

/-- `res->Type` value `CmResourceTypeConnection`. -/
def CmResourceTypeConnection : Nat := 0x84

def CmConnectionClassSerial : Nat := 0x02

def CmConnectionClassGpio : Nat := 0x01

def CmConnectionTypeSerialI2C : Nat := 0x01

def CmConnectionTypeGpioIo : Nat := 0x02

/-- A `CM_PARTIAL_RESOURCE_DESCRIPTOR` as read by `OnPrepareHardware`:
its resource type, its connection class and connection type (only
meaningful when the resource type is a connection), and the two halves of
the resource-hub ID. -/
structure CmResourceDescriptor where
  ResType : Nat
  ConnectionClass : Nat
  ConnectionType : Nat
  IdLowPart : Nat
  IdHighPart : Nat
deriving DecidableEq, Repr

/-- First condition in the resource loop: a Serial/I2C connection. -/
def isI2CDescriptor (res : CmResourceDescriptor) : Bool :=
  res.ResType = CmResourceTypeConnection &&
  res.ConnectionClass = CmConnectionClassSerial &&
  res.ConnectionType = CmConnectionTypeSerialI2C

/-- Second condition in the resource loop: a GPIO I/O connection. -/
def isGpioIoDescriptor (res : CmResourceDescriptor) : Bool :=
  res.ResType = CmResourceTypeConnection &&
  res.ConnectionClass = CmConnectionClassGpio &&
  res.ConnectionType = CmConnectionTypeGpioIo

/-- State that the resource loop of `OnPrepareHardware` mutates. -/
structure ResolverState where
  status : NTSTATUS
  I2cResHubId : Nat × Nat
  ResetGpioId : Nat × Nat
  HasResetGpio : Bool
deriving DecidableEq, Repr

/-- One iteration of the resource loop (device.c lines 404-431). -/
def resolveStep (st : ResolverState) (res : CmResourceDescriptor) :
    ResolverState :=
  let st1 :=
    if isI2CDescriptor res then
      { st with I2cResHubId := (res.IdLowPart, res.IdHighPart),
                status := STATUS_SUCCESS }
    else st
  if isGpioIoDescriptor res then
    { st1 with ResetGpioId := (res.IdLowPart, res.IdHighPart),
               HasResetGpio := true }
  else st1

/-- The whole resource loop, descriptors processed in list order. -/
def resolveResources (st : ResolverState)
    (resources : List CmResourceDescriptor) : ResolverState :=
  resources.foldl resolveStep st

/-- State of `OnPrepareHardware` on entry to the resource loop:
`status = STATUS_INSUFFICIENT_RESOURCES` (device.c line 396) and the
context's current resource fields. -/
def initialResolverState (devContext : DEVICE_EXTENSION) : ResolverState :=
  { status := STATUS_INSUFFICIENT_RESOURCES,
    I2cResHubId := devContext.I2cResHubId,
    ResetGpioId := devContext.ResetGpioId,
    HasResetGpio := devContext.HasResetGpio }

/-- `OnPrepareHardware` (device.c lines 358-528).  The context enters with
the caller's `I2cResHubId` / `ResetGpioId` / `HasResetGpio`; `status`
starts as `STATUS_INSUFFICIENT_RESOURCES`.  After the resource loop, a
non-success status jumps to `exit` before `SpbTargetInitialize`; the
remaining steps run in order, each jumping to `exit` on failure.
`spbStatus`, `allocStatus` and `startStatus` are the statuses the
external `SpbTargetInitialize`, `TchAllocateContext` and `TchStartDevice`
return.  Result: returned status, final resolver state, trace of the
external calls made. -/
def OnPrepareHardware (devContext : DEVICE_EXTENSION)
    (resources : List CmResourceDescriptor)
    (spbStatus allocStatus startStatus : NTSTATUS) :
    NTSTATUS × ResolverState × List DriverCall :=
  let st := resolveResources (initialResolverState devContext) resources
  if NT_SUCCESS st.status = false then
    (st.status, st, [])
  else if NT_SUCCESS spbStatus = false then
    (spbStatus, st, [DriverCall.SpbTargetInitialize])
  else if NT_SUCCESS allocStatus = false then
    (allocStatus, st, [DriverCall.SpbTargetInitialize,
                       DriverCall.TchAllocateContext])
  else
    (startStatus, st, [DriverCall.SpbTargetInitialize,
                       DriverCall.TchAllocateContext,
                       DriverCall.TchStartDevice])

/-! ### Characterization of the dispatch loop -/

/-- The dispatch loop pairs the report array with the front of the FIFO
queue: the completions are exactly `zipWith completeOneRequest` and the
queue loses its first `count` elements. -/
theorem SendHidReports_eq (szHID : Nat) :
    ∀ (hidReportsFromDriver : List HID_INPUT_REPORT) (q : List WDFREQUEST),
    SendHidReports szHID q hidReportsFromDriver =
      (q.drop hidReportsFromDriver.length,
       List.zipWith (completeOneRequest szHID) hidReportsFromDriver q)
  | [], q => by simp [SendHidReports]
  | rep :: rest, [] => by
      simp [SendHidReports, SendHidReports_eq szHID rest []]
  | rep :: rest, req :: qr => by
      simp [SendHidReports, SendHidReports_eq szHID rest qr]

/-- Every branch of the loop body completes the request it dequeued. -/
theorem completeOneRequest_reqId (szHID : Nat) (rep : HID_INPUT_REPORT)
    (req : WDFREQUEST) : (completeOneRequest szHID rep req).reqId = req.id := by
  unfold completeOneRequest
  split
  · rfl
  · split
    · rfl
    · rfl

/-- On a request with a retrievable, large-enough buffer the loop body
takes the success branch. -/
theorem completeOneRequest_valid (szHID : Nat) (rep : HID_INPUT_REPORT)
    (req : WDFREQUEST) (h1 : NT_SUCCESS req.retrieveStatus = true)
    (h2 : szHID ≤ req.bufferLength) :
    completeOneRequest szHID rep req =
      { reqId := req.id, status := STATUS_SUCCESS,
        information := szHID, written := some (rep.take szHID) } := by
  unfold completeOneRequest
  simp [h1, Nat.not_lt.mpr h2]

/-- Over an all-valid queue, the dispatch pairing takes the success
branch at every position. -/
theorem zipWith_complete_valid (szHID : Nat) :
    ∀ (reports : List HID_INPUT_REPORT) (q : List WDFREQUEST),
    (∀ r ∈ q, NT_SUCCESS r.retrieveStatus = true ∧ szHID ≤ r.bufferLength) →
    List.zipWith (completeOneRequest szHID) reports q =
      List.zipWith (fun rep req =>
        ({ reqId := req.id, status := STATUS_SUCCESS,
           information := szHID, written := some (rep.take szHID) } : Completion))
        reports q
  | [], q, _ => by simp
  | rep :: rest, [], _ => by simp
  | rep :: rest, req :: qr, h => by
      have hh := h req (List.mem_cons_self _ _)
      simp only [List.zipWith_cons_cons,
        completeOneRequest_valid szHID rep req hh.1 hh.2,
        zipWith_complete_valid szHID rest qr
          (fun r hr => h r (List.mem_cons_of_mem _ hr))]

/-- Over an all-valid queue every emitted completion is a success. -/
theorem zipWith_complete_status (szHID : Nat) :
    ∀ (reports : List HID_INPUT_REPORT) (q : List WDFREQUEST),
    (∀ r ∈ q, NT_SUCCESS r.retrieveStatus = true ∧ szHID ≤ r.bufferLength) →
    ∀ c ∈ List.zipWith (completeOneRequest szHID) reports q,
      c.status = STATUS_SUCCESS
  | [], q, _ => by simp
  | rep :: rest, [], _ => by simp
  | rep :: rest, req :: qr, h => by
      intro c hc
      rcases List.mem_cons.mp hc with hc | hc
      · have hh := h req (List.mem_cons_self _ _)
        rw [hc, completeOneRequest_valid szHID rep req hh.1 hh.2]
      · exact zipWith_complete_status szHID rest qr
          (fun r hr => h r (List.mem_cons_of_mem _ hr)) c hc

/-- The completions name exactly the dequeued requests, in queue order;
no validity hypothesis is needed because every branch completes the
request it dequeued. -/
theorem zipWith_complete_map_reqId (szHID : Nat) :
    ∀ (reports : List HID_INPUT_REPORT) (q : List WDFREQUEST),
    (List.zipWith (completeOneRequest szHID) reports q).map Completion.reqId =
      (q.take reports.length).map WDFREQUEST.id
  | [], q => by simp
  | rep :: rest, [] => by simp
  | rep :: rest, req :: qr => by
      simp [completeOneRequest_reqId, zipWith_complete_map_reqId szHID rest qr]

/-- zipWith with a function using only its left argument is a map over a
prefix of the left list. -/
theorem zipWith_const_left {α β γ : Type} (g : α → γ) :
    ∀ (l1 : List α) (l2 : List β),
    List.zipWith (fun a _ => g a) l1 l2 = (l1.take l2.length).map g
  | [], l2 => by simp
  | a :: l1, [] => by simp
  | a :: l1, b :: l2 => by simp [zipWith_const_left g l1 l2]

/-- zipWith with the success completion: the written payloads are the
reports themselves, in producer order, truncated to the queue length. -/
theorem zipWith_success_map_written (szHID : Nat) :
    ∀ (reports : List HID_INPUT_REPORT) (q : List WDFREQUEST),
    (List.zipWith (fun rep req =>
        ({ reqId := req.id, status := STATUS_SUCCESS,
           information := szHID, written := some rep } : Completion))
      reports q).map Completion.written =
      (reports.take q.length).map some
  | [], q => by simp
  | rep :: rest, [] => by simp
  | rep :: rest, req :: qr => by
      simp [zipWith_success_map_written szHID rest qr]

/-- Over an all-valid queue and full-size reports, the dispatch pairing
copies each report whole. -/
theorem zipWith_complete_sized (szHID : Nat) :
    ∀ (reports : List HID_INPUT_REPORT) (q : List WDFREQUEST),
    (∀ r ∈ q, NT_SUCCESS r.retrieveStatus = true ∧ szHID ≤ r.bufferLength) →
    (∀ rep ∈ reports, rep.length = szHID) →
    List.zipWith (completeOneRequest szHID) reports q =
      List.zipWith (fun rep req =>
        ({ reqId := req.id, status := STATUS_SUCCESS,
           information := szHID, written := some rep } : Completion))
        reports q
  | [], q, _, _ => by simp
  | rep :: rest, [], _, _ => by simp
  | rep :: rest, req :: qr, h, hr => by
      have hh := h req (List.mem_cons_self _ _)
      have hlen := hr rep (List.mem_cons_self _ _)
      have htake : rep.take szHID = rep := by
        rw [← hlen]; exact List.take_length rep
      simp only [List.zipWith_cons_cons,
        completeOneRequest_valid szHID rep req hh.1 hh.2, htake,
        zipWith_complete_sized szHID rest qr
          (fun r hx => h r (List.mem_cons_of_mem _ hx))
          (fun x hx => hr x (List.mem_cons_of_mem _ hx))]

/-! ### The claims -/

/-- C1: over an ISR invocation in which `TchServiceInterrupts` succeeds
with `n` reports while the ping-pong queue holds `p` pending requests
whose buffers are all retrievable and at least `sizeof(HID_INPUT_REPORT)`
bytes, `SendHidReports` completes exactly `min n p` requests, all with
success; the other `n - min n p` reports are dropped (the final state is
just the drained queue, nothing is buffered); the completions name the
first `min n p` queued requests, so no request is completed twice (the
completion ids inherit the queue ids' distinctness); and when `p ≤ n`
the queue is fully drained, leaving no pending request unmatched while a
report was in flight. -/
theorem OnInterruptIsr_conservation (szHID : Nat)
    (devContext : DEVICE_EXTENSION) (svcStatus : NTSTATUS)
    (reports : List HID_INPUT_REPORT)
    (hsvc : NT_SUCCESS svcStatus = true)
    (hq : ∀ r ∈ devContext.PingPongQueue,
        NT_SUCCESS r.retrieveStatus = true ∧ szHID ≤ r.bufferLength) :
    ((OnInterruptIsr szHID devContext svcStatus reports).2.2).length =
      min reports.length devContext.PingPongQueue.length ∧
    (∀ c ∈ (OnInterruptIsr szHID devContext svcStatus reports).2.2,
      c.status = STATUS_SUCCESS) ∧
    ((OnInterruptIsr szHID devContext svcStatus reports).2.2).map
        Completion.reqId =
      (devContext.PingPongQueue.take reports.length).map WDFREQUEST.id ∧
    ((OnInterruptIsr szHID devContext svcStatus reports).2.1).PingPongQueue =
      devContext.PingPongQueue.drop reports.length ∧
    ((devContext.PingPongQueue.map WDFREQUEST.id).Nodup →
      (((OnInterruptIsr szHID devContext svcStatus reports).2.2).map
        Completion.reqId).Nodup) ∧
    (devContext.PingPongQueue.length ≤ reports.length →
      ((OnInterruptIsr szHID devContext svcStatus reports).2.1).PingPongQueue
        = []) := by
  have hout : OnInterruptIsr szHID devContext svcStatus reports =
      (true,
       { devContext with
          PingPongQueue := devContext.PingPongQueue.drop reports.length },
       List.zipWith (completeOneRequest szHID) reports
         devContext.PingPongQueue) := by
    simp [OnInterruptIsr, hsvc, SendHidReports_eq]
  rw [hout]
  refine ⟨by simp, ?_, ?_, rfl, ?_, ?_⟩
  · exact zipWith_complete_status szHID reports devContext.PingPongQueue hq
  · exact zipWith_complete_map_reqId szHID reports devContext.PingPongQueue
  · intro hnodup
    have hmap := zipWith_complete_map_reqId szHID reports
      devContext.PingPongQueue
    simp only [hmap, List.map_take]
    exact (List.take_sublist _ _).nodup hnodup
  · intro hle
    simp [List.drop_eq_nil_of_le hle]

/-- C2: with a FIFO queue of adequate requests and full-size reports, the
dispatch completes requests carrying the report payloads in exactly
producer order: the completions are the pointwise pairing of the report
array with the queue front, each copying exactly
`sizeof(HID_INPUT_REPORT)` bytes of `reports[i]` and recording
`information = sizeof(HID_INPUT_REPORT)`; consequently the written
payloads are the first `min n p` reports in order. -/
theorem SendHidReports_producer_order (szHID : Nat)
    (PingPongQueue : List WDFREQUEST) (reports : List HID_INPUT_REPORT)
    (hq : ∀ r ∈ PingPongQueue,
        NT_SUCCESS r.retrieveStatus = true ∧ szHID ≤ r.bufferLength)
    (hrep : ∀ rep ∈ reports, rep.length = szHID) :
    (SendHidReports szHID PingPongQueue reports).2 =
      List.zipWith (fun rep req =>
        ({ reqId := req.id, status := STATUS_SUCCESS,
           information := szHID, written := some rep } : Completion))
        reports PingPongQueue ∧
    ((SendHidReports szHID PingPongQueue reports).2).map Completion.written =
      (reports.take PingPongQueue.length).map some := by
  have h1 : (SendHidReports szHID PingPongQueue reports).2 =
      List.zipWith (fun rep req =>
        ({ reqId := req.id, status := STATUS_SUCCESS,
           information := szHID, written := some rep } : Completion))
        reports PingPongQueue := by
    rw [SendHidReports_eq szHID reports PingPongQueue]
    exact zipWith_complete_sized szHID reports PingPongQueue hq hrep
  refine ⟨h1, ?_⟩
  rw [h1]
  exact zipWith_success_map_written szHID reports PingPongQueue

/-- C3: the ISR returns TRUE on every invocation; and when
`TchServiceInterrupts` fails, nothing is dispatched: the device context
is untouched (no request dequeued) and no completion is emitted. -/
theorem OnInterruptIsr_always_recognized (szHID : Nat)
    (devContext : DEVICE_EXTENSION) (svcStatus : NTSTATUS)
    (reports : List HID_INPUT_REPORT) :
    (OnInterruptIsr szHID devContext svcStatus reports).1 = true ∧
    (NT_SUCCESS svcStatus = false →
      (OnInterruptIsr szHID devContext svcStatus reports).2.1 = devContext ∧
      (OnInterruptIsr szHID devContext svcStatus reports).2.2 = []) := by
  unfold OnInterruptIsr
  by_cases h : NT_SUCCESS svcStatus = false
  · simp [h]
  · simp [h]

/-- C4: a dequeued request whose output buffer cannot be retrieved is
completed with the retrieval failure status and no bytes are written; a
dequeued request whose reported buffer length is below
`sizeof(HID_INPUT_REPORT)` is completed with `STATUS_BUFFER_TOO_SMALL`
and no bytes are written; and in either case the loop continues, the
remaining reports being dispatched against the remaining queue. -/
theorem SendHidReports_buffer_discipline (szHID : Nat)
    (rep : HID_INPUT_REPORT) (req : WDFREQUEST)
    (more : List HID_INPUT_REPORT) (qrest : List WDFREQUEST) :
    SendHidReports szHID (req :: qrest) (rep :: more) =
      ((SendHidReports szHID qrest more).1,
       completeOneRequest szHID rep req ::
         (SendHidReports szHID qrest more).2) ∧
    (NT_SUCCESS req.retrieveStatus = false →
      completeOneRequest szHID rep req =
        { reqId := req.id, status := req.retrieveStatus,
          information := 0, written := none }) ∧
    (NT_SUCCESS req.retrieveStatus = true → req.bufferLength < szHID →
      completeOneRequest szHID rep req =
        { reqId := req.id, status := STATUS_BUFFER_TOO_SMALL,
          information := 0, written := none }) := by
  refine ⟨rfl, ?_, ?_⟩
  · intro h
    unfold completeOneRequest
    simp [h]
  · intro h1 h2
    unfold completeOneRequest
    simp [h1, h2]

/-- C5: every request dequeued during a dispatch pass receives exactly
one completion, on every control-flow path: the emitted completions name
exactly the dequeued requests (the first `min n p` of the queue), in
order; their count is `min n p`; and distinct queue ids yield distinct
completion ids, so no dequeued request is completed twice or silently
dropped. -/
theorem SendHidReports_exactly_one_completion (szHID : Nat)
    (q : List WDFREQUEST) (reports : List HID_INPUT_REPORT) :
    ((SendHidReports szHID q reports).2).map Completion.reqId =
      (q.take reports.length).map WDFREQUEST.id ∧
    ((SendHidReports szHID q reports).2).length =
      min reports.length q.length ∧
    ((q.map WDFREQUEST.id).Nodup →
      (((SendHidReports szHID q reports).2).map Completion.reqId).Nodup) := by
  have h := SendHidReports_eq szHID reports q
  refine ⟨?_, ?_, ?_⟩
  · rw [h]
    exact zipWith_complete_map_reqId szHID reports q
  · rw [h]
    simp
  · intro hnodup
    rw [h]
    simp only [zipWith_complete_map_reqId szHID reports q, List.map_take]
    exact (List.take_sublist _ _).nodup hnodup

/-- C6 counterexample: when `TchStopDevice` fails with
`STATUS_UNSUCCESSFUL` and `TchFreeContext` succeeds, the first
non-success status among the attempted steps is `STATUS_UNSUCCESSFUL`,
yet `OnReleaseHardware` returns `STATUS_SUCCESS`: the `status` variable
is overwritten by the free step, so the first failure is not returned. -/
theorem OnReleaseHardware_counterexample :
    NT_SUCCESS STATUS_UNSUCCESSFUL = false ∧
    (OnReleaseHardware STATUS_UNSUCCESSFUL STATUS_SUCCESS).1 =
      STATUS_SUCCESS ∧
    STATUS_SUCCESS ≠ STATUS_UNSUCCESSFUL := by
  exact ⟨by decide, rfl, by decide⟩

/-- C6 amended: each teardown step (stop the touch device, free the touch
context, deinitialize the bus channel) is attempted even if an earlier
step failed, and the function returns the status of the last
status-returning step, `TchFreeContext` — an earlier failure from
`TchStopDevice` is overwritten, not returned. -/
theorem OnReleaseHardware_all_steps_attempted
    (stopStatus freeStatus : NTSTATUS) :
    (OnReleaseHardware stopStatus freeStatus).2 =
      [DriverCall.TchStopDevice, DriverCall.TchFreeContext,
       DriverCall.SpbTargetDeinitialize] ∧
    (OnReleaseHardware stopStatus freeStatus).1 = freeStatus :=
  ⟨rfl, rfl⟩

/-- C9: on every `OnD0Entry` invocation the wake operation is attempted,
`ServiceInterruptsAfterD0Entry` is set to TRUE, `TchCompleteIdleIrp` is
triggered, and the returned status is whatever `TchWakeDevice` produced
— all of this holds for failing wake statuses too, since the statement
quantifies over every `wakeStatus`. -/
theorem OnD0Entry_wake_flag_idle (devContext : DEVICE_EXTENSION)
    (wakeStatus : NTSTATUS) :
    (OnD0Entry devContext wakeStatus).1 = wakeStatus ∧
    ((OnD0Entry devContext wakeStatus).2.1).ServiceInterruptsAfterD0Entry
      = true ∧
    DriverCall.TchWakeDevice ∈ (OnD0Entry devContext wakeStatus).2.2 ∧
    DriverCall.TchCompleteIdleIrp ∈ (OnD0Entry devContext wakeStatus).2.2 := by
  refine ⟨rfl, rfl, ?_, ?_⟩ <;> simp [OnD0Entry]

/-- C10: the ISR neither reads nor writes `ServiceInterruptsAfterD0Entry`
— on two contexts differing only in that flag it returns the same
verdict, emits the same completions, and leaves the same queue, and each
run preserves its own flag value. -/
theorem OnInterruptIsr_flag_noninterference (szHID : Nat)
    (devContext : DEVICE_EXTENSION) (b1 b2 : Bool) (svcStatus : NTSTATUS)
    (reports : List HID_INPUT_REPORT) :
    (OnInterruptIsr szHID
        { devContext with ServiceInterruptsAfterD0Entry := b1 }
        svcStatus reports).1 =
      (OnInterruptIsr szHID
        { devContext with ServiceInterruptsAfterD0Entry := b2 }
        svcStatus reports).1 ∧
    (OnInterruptIsr szHID
        { devContext with ServiceInterruptsAfterD0Entry := b1 }
        svcStatus reports).2.2 =
      (OnInterruptIsr szHID
        { devContext with ServiceInterruptsAfterD0Entry := b2 }
        svcStatus reports).2.2 ∧
    ((OnInterruptIsr szHID
        { devContext with ServiceInterruptsAfterD0Entry := b1 }
        svcStatus reports).2.1).PingPongQueue =
      ((OnInterruptIsr szHID
        { devContext with ServiceInterruptsAfterD0Entry := b2 }
        svcStatus reports).2.1).PingPongQueue ∧
    ((OnInterruptIsr szHID
        { devContext with ServiceInterruptsAfterD0Entry := b1 }
        svcStatus reports).2.1).ServiceInterruptsAfterD0Entry = b1 ∧
    ((OnInterruptIsr szHID
        { devContext with ServiceInterruptsAfterD0Entry := b2 }
        svcStatus reports).2.1).ServiceInterruptsAfterD0Entry = b2 := by
  unfold OnInterruptIsr
  by_cases h : NT_SUCCESS svcStatus = false <;> simp [h]

/-! ### Characterization of the resource loop -/

/-- One loop iteration changes `status` only on a Serial/I2C match. -/
theorem resolveStep_status (st : ResolverState)
    (res : CmResourceDescriptor) :
    (resolveStep st res).status =
      if isI2CDescriptor res then STATUS_SUCCESS else st.status := by
  unfold resolveStep
  by_cases h1 : isI2CDescriptor res <;>
    by_cases h2 : isGpioIoDescriptor res <;> simp [h1, h2]

/-- One loop iteration changes `I2cResHubId` only on a Serial/I2C match. -/
theorem resolveStep_I2cResHubId (st : ResolverState)
    (res : CmResourceDescriptor) :
    (resolveStep st res).I2cResHubId =
      if isI2CDescriptor res then (res.IdLowPart, res.IdHighPart)
      else st.I2cResHubId := by
  unfold resolveStep
  by_cases h1 : isI2CDescriptor res <;>
    by_cases h2 : isGpioIoDescriptor res <;> simp [h1, h2]

/-- One loop iteration changes `ResetGpioId` only on a GPIO I/O match. -/
theorem resolveStep_ResetGpioId (st : ResolverState)
    (res : CmResourceDescriptor) :
    (resolveStep st res).ResetGpioId =
      if isGpioIoDescriptor res then (res.IdLowPart, res.IdHighPart)
      else st.ResetGpioId := by
  unfold resolveStep
  by_cases h1 : isI2CDescriptor res <;>
    by_cases h2 : isGpioIoDescriptor res <;> simp [h1, h2]

/-- One loop iteration arms `HasResetGpio` exactly on a GPIO I/O match. -/
theorem resolveStep_HasResetGpio (st : ResolverState)
    (res : CmResourceDescriptor) :
    (resolveStep st res).HasResetGpio =
      (st.HasResetGpio || isGpioIoDescriptor res) := by
  unfold resolveStep
  by_cases h1 : isI2CDescriptor res <;>
    by_cases h2 : isGpioIoDescriptor res <;> simp [h1, h2]

/-- A descriptor matching neither recognized class leaves the state
untouched. -/
theorem resolveStep_unrecognized (st : ResolverState)
    (res : CmResourceDescriptor) (h1 : isI2CDescriptor res = false)
    (h2 : isGpioIoDescriptor res = false) :
    resolveStep st res = st := by
  unfold resolveStep
  simp [h1, h2]

/-- After the loop, `status` is success exactly when some Serial/I2C
descriptor occurred. -/
theorem resolveResources_status (resources : List CmResourceDescriptor) :
    ∀ st : ResolverState,
    (resolveResources st resources).status =
      if resources.any isI2CDescriptor then STATUS_SUCCESS
      else st.status := by
  induction resources with
  | nil => intro st; simp [resolveResources]
  | cons d ds ih =>
    intro st
    rw [show resolveResources st (d :: ds) =
          resolveResources (resolveStep st d) ds from rfl, ih,
        resolveStep_status]
    by_cases h1 : isI2CDescriptor d <;>
      by_cases h2 : ds.any isI2CDescriptor <;> simp [h1, h2]

/-- After the loop, `HasResetGpio` is armed exactly when it was already
armed or some GPIO I/O descriptor occurred. -/
theorem resolveResources_HasResetGpio
    (resources : List CmResourceDescriptor) :
    ∀ st : ResolverState,
    (resolveResources st resources).HasResetGpio =
      (st.HasResetGpio || resources.any isGpioIoDescriptor) := by
  induction resources with
  | nil => intro st; simp [resolveResources]
  | cons d ds ih =>
    intro st
    rw [show resolveResources st (d :: ds) =
          resolveResources (resolveStep st d) ds from rfl, ih,
        resolveStep_HasResetGpio]
    simp [Bool.or_assoc]

/-- After the loop, `I2cResHubId` carries the ID of the last Serial/I2C
descriptor, or the initial value if none occurred. -/
theorem resolveResources_I2cResHubId
    (resources : List CmResourceDescriptor) :
    ∀ st : ResolverState,
    (resolveResources st resources).I2cResHubId =
      (match (resources.filter isI2CDescriptor).getLast? with
       | some d => (d.IdLowPart, d.IdHighPart)
       | none => st.I2cResHubId) := by
  induction resources with
  | nil => intro st; simp [resolveResources]
  | cons d ds ih =>
    intro st
    rw [show resolveResources st (d :: ds) =
          resolveResources (resolveStep st d) ds from rfl, ih]
    by_cases h1 : isI2CDescriptor d
    · rw [List.filter_cons_of_pos h1]
      cases hds : ds.filter isI2CDescriptor with
      | nil => simp [resolveStep_I2cResHubId, h1]
      | cons e es =>
        have hne : e :: es ≠ ([] : List CmResourceDescriptor) := by simp
        rw [List.getLast?_cons_cons,
          List.getLast?_eq_getLast_of_ne_nil hne]
    · rw [List.filter_cons_of_neg (by simp [h1])]
      cases hds : (ds.filter isI2CDescriptor).getLast? with
      | none => simp [resolveStep_I2cResHubId, h1]
      | some e => simp

/-- After the loop, `ResetGpioId` carries the ID of the last GPIO I/O
descriptor, or the initial value if none occurred. -/
theorem resolveResources_ResetGpioId
    (resources : List CmResourceDescriptor) :
    ∀ st : ResolverState,
    (resolveResources st resources).ResetGpioId =
      (match (resources.filter isGpioIoDescriptor).getLast? with
       | some d => (d.IdLowPart, d.IdHighPart)
       | none => st.ResetGpioId) := by
  induction resources with
  | nil => intro st; simp [resolveResources]
  | cons d ds ih =>
    intro st
    rw [show resolveResources st (d :: ds) =
          resolveResources (resolveStep st d) ds from rfl, ih]
    by_cases h1 : isGpioIoDescriptor d
    · rw [List.filter_cons_of_pos h1]
      cases hds : ds.filter isGpioIoDescriptor with
      | nil => simp [resolveStep_ResetGpioId, h1]
      | cons e es =>
        have hne : e :: es ≠ ([] : List CmResourceDescriptor) := by simp
        rw [List.getLast?_cons_cons,
          List.getLast?_eq_getLast_of_ne_nil hne]
    · rw [List.filter_cons_of_neg (by simp [h1])]
      cases hds : (ds.filter isGpioIoDescriptor).getLast? with
      | none => simp [resolveStep_ResetGpioId, h1]
      | some e => simp

/-- Dropping the unrecognized descriptors does not change the loop's
outcome. -/
theorem resolveResources_filter (resources : List CmResourceDescriptor) :
    ∀ st : ResolverState,
    resolveResources st resources =
      resolveResources st (resources.filter
        (fun res => isI2CDescriptor res || isGpioIoDescriptor res)) := by
  induction resources with
  | nil => intro st; rfl
  | cons d ds ih =>
    intro st
    by_cases h : (isI2CDescriptor d || isGpioIoDescriptor d) = true
    · rw [List.filter_cons_of_pos
        (p := fun res => isI2CDescriptor res || isGpioIoDescriptor res) h]
      exact ih (resolveStep st d)
    · have h2 := h
      simp only [Bool.or_eq_true, not_or, Bool.not_eq_true] at h2
      rw [List.filter_cons_of_neg
            (p := fun res => isI2CDescriptor res || isGpioIoDescriptor res) h,
          show resolveResources st (d :: ds) =
            resolveResources (resolveStep st d) ds from rfl,
          resolveStep_unrecognized st d h2.1 h2.2]
      exact ih st

/-- All four exit paths of `OnPrepareHardware` carry the post-loop
resolver state. -/
theorem OnPrepareHardware_state (devContext : DEVICE_EXTENSION)
    (resources : List CmResourceDescriptor)
    (spbStatus allocStatus startStatus : NTSTATUS) :
    (OnPrepareHardware devContext resources spbStatus allocStatus
        startStatus).2.1 =
      resolveResources (initialResolverState devContext) resources := by
  unfold OnPrepareHardware
  by_cases h1 : NT_SUCCESS (resolveResources (initialResolverState
      devContext) resources).status = false <;>
    by_cases h2 : NT_SUCCESS spbStatus = false <;>
      by_cases h3 : NT_SUCCESS allocStatus = false <;>
        simp [h1, h2, h3]

/-- With no Serial/I2C descriptor the function exits straight after the
loop: the initial failure status is returned and no external call is
made. -/
theorem OnPrepareHardware_no_i2c (devContext : DEVICE_EXTENSION)
    (resources : List CmResourceDescriptor)
    (spbStatus allocStatus startStatus : NTSTATUS)
    (h : resources.any isI2CDescriptor = false) :
    OnPrepareHardware devContext resources spbStatus allocStatus
        startStatus =
      (STATUS_INSUFFICIENT_RESOURCES,
       resolveResources (initialResolverState devContext) resources, []) := by
  have hst : (resolveResources (initialResolverState devContext)
      resources).status = STATUS_INSUFFICIENT_RESOURCES := by
    rw [resolveResources_status resources (initialResolverState devContext),
      h]
    simp [initialResolverState]
  have hns : NT_SUCCESS STATUS_INSUFFICIENT_RESOURCES = false := by decide
  unfold OnPrepareHardware
  simp [hst, hns]

/-- With a Serial/I2C descriptor present, the bus channel initialization
is reached on every path. -/
theorem OnPrepareHardware_with_i2c (devContext : DEVICE_EXTENSION)
    (resources : List CmResourceDescriptor)
    (spbStatus allocStatus startStatus : NTSTATUS)
    (h : resources.any isI2CDescriptor = true) :
    DriverCall.SpbTargetInitialize ∈
      (OnPrepareHardware devContext resources spbStatus allocStatus
        startStatus).2.2 := by
  have hst : (resolveResources (initialResolverState devContext)
      resources).status = STATUS_SUCCESS := by
    rw [resolveResources_status resources (initialResolverState devContext),
      h]
    simp
  have hsucc : NT_SUCCESS STATUS_SUCCESS = true := by decide
  unfold OnPrepareHardware
  simp only [hst, hsucc]
  by_cases h2 : NT_SUCCESS spbStatus = false <;>
    by_cases h3 : NT_SUCCESS allocStatus = false <;> simp [h2, h3]

/-- With a Serial/I2C descriptor present and successful bus/context
setup, `OnPrepareHardware` returns the status of `TchStartDevice`. -/
theorem OnPrepareHardware_success_path (devContext : DEVICE_EXTENSION)
    (resources : List CmResourceDescriptor)
    (spbStatus allocStatus startStatus : NTSTATUS)
    (h : resources.any isI2CDescriptor = true)
    (h2 : NT_SUCCESS spbStatus = true)
    (h3 : NT_SUCCESS allocStatus = true) :
    (OnPrepareHardware devContext resources spbStatus allocStatus
        startStatus).1 = startStatus := by
  have hst : (resolveResources (initialResolverState devContext)
      resources).status = STATUS_SUCCESS := by
    rw [resolveResources_status resources (initialResolverState devContext),
      h]
    simp
  have hsucc : NT_SUCCESS STATUS_SUCCESS = true := by decide
  unfold OnPrepareHardware
  simp [hst, hsucc, h2, h3]

/-- C7: `OnPrepareHardware` fails with its missing-required-resource
status (`STATUS_INSUFFICIENT_RESOURCES`), making no bus-channel
initialization and no touch-context allocation, exactly when the
translated resource list carries no Serial/I2C connection descriptor;
when a GPIO I/O descriptor is present the resolver arms `HasResetGpio`
and records that descriptor's ID; and with an I2C descriptor present and
bus/context setup succeeding the function proceeds to `TchStartDevice`
and returns its status — so the absence of a GPIO descriptor alone never
causes failure. -/
theorem OnPrepareHardware_requires_i2c (devContext : DEVICE_EXTENSION)
    (resources : List CmResourceDescriptor)
    (spbStatus allocStatus startStatus : NTSTATUS) :
    (((OnPrepareHardware devContext resources spbStatus allocStatus
          startStatus).1 = STATUS_INSUFFICIENT_RESOURCES ∧
      DriverCall.SpbTargetInitialize ∉
        (OnPrepareHardware devContext resources spbStatus allocStatus
          startStatus).2.2 ∧
      DriverCall.TchAllocateContext ∉
        (OnPrepareHardware devContext resources spbStatus allocStatus
          startStatus).2.2) ↔
      resources.any isI2CDescriptor = false) ∧
    (resources.any isGpioIoDescriptor = true →
      ((OnPrepareHardware devContext resources spbStatus allocStatus
          startStatus).2.1).HasResetGpio = true ∧
      ∃ res ∈ resources, isGpioIoDescriptor res = true ∧
        ((OnPrepareHardware devContext resources spbStatus allocStatus
          startStatus).2.1).ResetGpioId =
          (res.IdLowPart, res.IdHighPart)) ∧
    (resources.any isI2CDescriptor = true →
      NT_SUCCESS spbStatus = true → NT_SUCCESS allocStatus = true →
      (OnPrepareHardware devContext resources spbStatus allocStatus
        startStatus).1 = startStatus) := by
  refine ⟨⟨?_, ?_⟩, ?_, ?_⟩
  · rintro ⟨ha, hb, hc⟩
    cases hx : resources.any isI2CDescriptor
    · rfl
    · exact absurd (OnPrepareHardware_with_i2c devContext resources
        spbStatus allocStatus startStatus hx) hb
  · intro h
    rw [OnPrepareHardware_no_i2c devContext resources spbStatus allocStatus
      startStatus h]
    exact ⟨rfl, by simp, by simp⟩
  · intro hg
    constructor
    · rw [OnPrepareHardware_state,
        resolveResources_HasResetGpio resources
          (initialResolverState devContext)]
      simp [hg]
    · have hfil : resources.filter isGpioIoDescriptor ≠ [] := by
        intro hnil
        rcases List.any_eq_true.mp hg with ⟨x, hx, hpx⟩
        have hxm : x ∈ resources.filter isGpioIoDescriptor :=
          List.mem_filter.mpr ⟨hx, hpx⟩
        rw [hnil] at hxm
        exact absurd hxm (List.not_mem_nil x)
      have hlast := List.getLast?_eq_getLast_of_ne_nil hfil
      have hmem := List.mem_filter.mp (List.getLast_mem hfil)
      refine ⟨(resources.filter isGpioIoDescriptor).getLast hfil,
        hmem.1, hmem.2, ?_⟩
      rw [OnPrepareHardware_state,
        resolveResources_ResetGpioId resources
          (initialResolverState devContext), hlast]
  · intro hi h2 h3
    exact OnPrepareHardware_success_path devContext resources spbStatus
      allocStatus startStatus hi h2 h3

/-- C8: the resource loop processes descriptors in list order; when
several descriptors of the same recognized class occur, the recorded
connection ID is that of the last one in the list (and the initial value
survives when none occurs); and descriptors matching neither recognized
class are ignored — filtering them out does not change the outcome. -/
theorem resolveResources_last_wins (st : ResolverState)
    (resources : List CmResourceDescriptor) :
    ((resolveResources st resources).I2cResHubId =
      (match (resources.filter isI2CDescriptor).getLast? with
       | some d => (d.IdLowPart, d.IdHighPart)
       | none => st.I2cResHubId)) ∧
    ((resolveResources st resources).ResetGpioId =
      (match (resources.filter isGpioIoDescriptor).getLast? with
       | some d => (d.IdLowPart, d.IdHighPart)
       | none => st.ResetGpioId)) ∧
    resolveResources st resources =
      resolveResources st (resources.filter
        (fun res => isI2CDescriptor res || isGpioIoDescriptor res)) :=
  ⟨resolveResources_I2cResHubId resources st,
   resolveResources_ResetGpioId resources st,
   resolveResources_filter resources st⟩

/-! ### Concrete instances -/

/-- A concrete context: two pending requests with retrievable 2-byte and
3-byte buffers. -/
def ctxTwoValid : DEVICE_EXTENSION :=
  { PingPongQueue :=
      [{ id := 0, retrieveStatus := STATUS_SUCCESS, bufferLength := 2 },
       { id := 1, retrieveStatus := STATUS_SUCCESS, bufferLength := 3 }],
    ServiceInterruptsAfterD0Entry := false,
    InputMode := 0,
    I2cResHubId := (0, 0),
    ResetGpioId := (0, 0),
    HasResetGpio := false }

/-- A GPIO I/O connection descriptor with resource-hub ID (10, 11). -/
def gpioDescW : CmResourceDescriptor :=
  { ResType := CmResourceTypeConnection,
    ConnectionClass := CmConnectionClassGpio,
    ConnectionType := CmConnectionTypeGpioIo,
    IdLowPart := 10, IdHighPart := 11 }

/-- A Serial/I2C connection descriptor with resource-hub ID (20, 21). -/
def i2cDescW : CmResourceDescriptor :=
  { ResType := CmResourceTypeConnection,
    ConnectionClass := CmConnectionClassSerial,
    ConnectionType := CmConnectionTypeSerialI2C,
    IdLowPart := 20, IdHighPart := 21 }

/-- Witness for C1: service succeeds with three reports against two
valid pending requests; both hypotheses hold, min 3 2 = 2 requests are
completed and the queue is drained. -/
theorem OnInterruptIsr_conservation_witness :
    NT_SUCCESS STATUS_SUCCESS = true ∧
    (∀ r ∈ ctxTwoValid.PingPongQueue,
      NT_SUCCESS r.retrieveStatus = true ∧ 2 ≤ r.bufferLength) ∧
    ((OnInterruptIsr 2 ctxTwoValid STATUS_SUCCESS
      [[1, 2], [3, 4], [5, 6]]).2.2).length = 2 ∧
    ((OnInterruptIsr 2 ctxTwoValid STATUS_SUCCESS
      [[1, 2], [3, 4], [5, 6]]).2.1).PingPongQueue = [] := by
  have h := OnInterruptIsr_conservation 2 ctxTwoValid STATUS_SUCCESS
    [[1, 2], [3, 4], [5, 6]] (by decide) (by decide)
  refine ⟨by decide, by decide, ?_, h.2.2.2.2.2 (by decide)⟩
  rw [h.1]
  decide

/-- Witness for C2: two full-size reports against the two valid
requests are delivered in producer order with full payloads. -/
theorem SendHidReports_producer_order_witness :
    (∀ r ∈ ctxTwoValid.PingPongQueue,
      NT_SUCCESS r.retrieveStatus = true ∧ 2 ≤ r.bufferLength) ∧
    (∀ rep ∈ [[1, 2], [3, 4]], List.length rep = 2) ∧
    (SendHidReports 2 ctxTwoValid.PingPongQueue [[1, 2], [3, 4]]).2 =
      [{ reqId := 0, status := STATUS_SUCCESS, information := 2,
         written := some [1, 2] },
       { reqId := 1, status := STATUS_SUCCESS, information := 2,
         written := some [3, 4] }] := by
  have h := SendHidReports_producer_order 2 ctxTwoValid.PingPongQueue
    [[1, 2], [3, 4]] (by decide) (by decide)
  refine ⟨by decide, by decide, ?_⟩
  rw [h.1]
  decide

/-- Witness for C3: a failing service status still yields TRUE and no
dispatch. -/
theorem OnInterruptIsr_always_recognized_witness :
    NT_SUCCESS STATUS_UNSUCCESSFUL = false ∧
    (OnInterruptIsr 2 ctxTwoValid STATUS_UNSUCCESSFUL [[1, 2]]).1 = true ∧
    (OnInterruptIsr 2 ctxTwoValid STATUS_UNSUCCESSFUL [[1, 2]]).2.1 =
      ctxTwoValid ∧
    (OnInterruptIsr 2 ctxTwoValid STATUS_UNSUCCESSFUL [[1, 2]]).2.2 = [] := by
  have h := OnInterruptIsr_always_recognized 2 ctxTwoValid
    STATUS_UNSUCCESSFUL [[1, 2]]
  have hf := h.2 (by decide)
  exact ⟨by decide, h.1, hf.1, hf.2⟩

/-- Witness for C4: a 1-byte buffer is completed with
`STATUS_BUFFER_TOO_SMALL` and nothing written; an unretrievable buffer
is completed with the retrieval failure status; the loop continues. -/
theorem SendHidReports_buffer_discipline_witness :
    (NT_SUCCESS STATUS_SUCCESS = true ∧ 1 < 2 ∧
      completeOneRequest 2 [9, 9]
          { id := 5, retrieveStatus := STATUS_SUCCESS, bufferLength := 1 } =
        { reqId := 5, status := STATUS_BUFFER_TOO_SMALL, information := 0,
          written := none }) ∧
    (NT_SUCCESS STATUS_UNSUCCESSFUL = false ∧
      completeOneRequest 2 [9, 9]
          { id := 7, retrieveStatus := STATUS_UNSUCCESSFUL,
            bufferLength := 2 } =
        { reqId := 7, status := STATUS_UNSUCCESSFUL, information := 0,
          written := none }) ∧
    SendHidReports 2
        [{ id := 5, retrieveStatus := STATUS_SUCCESS, bufferLength := 1 },
         { id := 6, retrieveStatus := STATUS_SUCCESS, bufferLength := 2 }]
        [[9, 9], [7, 7]] =
      ((SendHidReports 2
          [{ id := 6, retrieveStatus := STATUS_SUCCESS, bufferLength := 2 }]
          [[7, 7]]).1,
       completeOneRequest 2 [9, 9]
           { id := 5, retrieveStatus := STATUS_SUCCESS, bufferLength := 1 } ::
         (SendHidReports 2
           [{ id := 6, retrieveStatus := STATUS_SUCCESS, bufferLength := 2 }]
           [[7, 7]]).2) := by
  have h := SendHidReports_buffer_discipline 2 [9, 9]
    { id := 5, retrieveStatus := STATUS_SUCCESS, bufferLength := 1 }
    [[7, 7]]
    [{ id := 6, retrieveStatus := STATUS_SUCCESS, bufferLength := 2 }]
  have h2 := SendHidReports_buffer_discipline 2 [9, 9]
    { id := 7, retrieveStatus := STATUS_UNSUCCESSFUL, bufferLength := 2 }
    [[7, 7]]
    [{ id := 6, retrieveStatus := STATUS_SUCCESS, bufferLength := 2 }]
  exact ⟨⟨by decide, by decide, h.2.2 (by decide) (by decide)⟩,
    ⟨by decide, h2.2.1 (by decide)⟩, h.1⟩

/-- Witness for C5: with distinct queue ids, one report yields exactly
one completion, naming request 0··, and the completion ids are distinct. -/
theorem SendHidReports_exactly_one_completion_witness :
    (ctxTwoValid.PingPongQueue.map WDFREQUEST.id).Nodup ∧
    ((SendHidReports 2 ctxTwoValid.PingPongQueue [[1, 2]]).2).map
        Completion.reqId = [0] ∧
    (((SendHidReports 2 ctxTwoValid.PingPongQueue [[1, 2]]).2).map
        Completion.reqId).Nodup := by
  have h := SendHidReports_exactly_one_completion 2
    ctxTwoValid.PingPongQueue [[1, 2]]
  refine ⟨by decide, ?_, h.2.2 (by decide)⟩
  rw [h.1]
  decide

/-- Witness for C7: with a GPIO descriptor followed by an I2C descriptor
and successful setup statuses, preparation succeeds and arms the reset
GPIO; with an empty resource list it fails with the
missing-required-resource status. -/
theorem OnPrepareHardware_requires_i2c_witness :
    ([gpioDescW, i2cDescW].any isI2CDescriptor = true ∧
     [gpioDescW, i2cDescW].any isGpioIoDescriptor = true ∧
     NT_SUCCESS STATUS_SUCCESS = true) ∧
    ((OnPrepareHardware ctxTwoValid [gpioDescW, i2cDescW] STATUS_SUCCESS
        STATUS_SUCCESS STATUS_SUCCESS).2.1).HasResetGpio = true ∧
    (OnPrepareHardware ctxTwoValid [gpioDescW, i2cDescW] STATUS_SUCCESS
        STATUS_SUCCESS STATUS_SUCCESS).1 = STATUS_SUCCESS ∧
    (OnPrepareHardware ctxTwoValid [] STATUS_SUCCESS STATUS_SUCCESS
        STATUS_SUCCESS).1 = STATUS_INSUFFICIENT_RESOURCES := by
  have h := OnPrepareHardware_requires_i2c ctxTwoValid
    [gpioDescW, i2cDescW] STATUS_SUCCESS STATUS_SUCCESS STATUS_SUCCESS
  have he := OnPrepareHardware_requires_i2c ctxTwoValid []
    STATUS_SUCCESS STATUS_SUCCESS STATUS_SUCCESS
  exact ⟨⟨by decide, by decide, by decide⟩,
    (h.2.1 (by decide)).1,
    h.2.2 (by decide) (by decide) (by decide),
    (he.1.mpr (by decide)).1⟩

end FocalTech
